import Mathlib

/-!
# dgman: transaction context (txn.go)

A shallow embedding of `txn.go`.  A `TxnContext` couples a dgo transaction
handle with a `context.Context`; every method either forwards to a
collaborator or builds a helper value.

Conventions of the embedding
* A Go `error` result is an `Option Err`: `none` is `nil`, `some e` is the
  non-nil error value `e`.  A Go `(value, error)` result is an `Except Err _`.
* A `*MutateOptions` is an `Option MutateOptions`: `none` is the nil pointer,
  `some o` a pointer to a struct holding `o`.
* The pointer receiver `t *TxnContext` is passed in and handed back, so each
  method returns the receiver as it stands after the call.
* Everything outside `txn.go` that a method calls (the dgo client and
  transaction, `newMutateType`, `mutate`, `saveUID`, `mutateWithConstraints`)
  is a field of `Env`, acting on an external world `W` (the database, the
  transaction objects, the memory the data points to).
-/

namespace Dgman

/-- Modelled from the spec: the declaration of `MutateOptions` is not part of
`txn.go`; the spec describes it as a configuration value holding a
commit-on-success flag and a constraint-check toggle. -/
structure MutateOptions where
  commitOnSuccess : Bool
  constraintCheck : Bool
deriving DecidableEq, Repr

/-- The Go zero value `MutateOptions{}`: every field at its zero value. -/
def MutateOptions.zero : MutateOptions := ⟨false, false⟩

/-- The value returned by `mutate` on success (a nil error comes with a
usable value, as is the Go convention).  `txn.go` reads only its `Uids`
field. -/
structure Assigned (Uids : Type) where
  Uids : Uids
deriving DecidableEq, Repr

/-- The struct `TxnContext` of `txn.go`: `txn *dgo.Txn` and
`ctx context.Context`. -/
structure TxnContext (Handle Ctx : Type) where
  txn : Handle
  ctx : Ctx
deriving DecidableEq, Repr

/-- The fields of `Query` that `txn.go` sets in its struct literals (`ctx`,
`tx`, `model`); every other field of the Go struct is left at its zero value
by those literals. -/
structure Query (Handle Ctx Data : Type) where
  ctx : Ctx
  tx : Handle
  model : Data
deriving DecidableEq, Repr

/-- The fields of `Deleter` that `txn.go` sets in its struct literal (`q`,
`ctx`, `tx`, `mutateOpt`). -/
structure Deleter (Handle Ctx Data : Type) where
  q : Query Handle Ctx Data
  ctx : Ctx
  tx : Handle
  mutateOpt : Option MutateOptions
deriving DecidableEq, Repr

/-- The collaborators of `txn.go`, none of which is defined in it.
`Client` is `*dgo.Dgraph`, `Handle` is `*dgo.Txn`, `Ctx` is `context.Context`,
`Data` is `interface{}`, `Err` the non-nil error values, `Uids` the type of
`assigned.Uids`, `MType` the descriptor returned by `newMutateType`, and `W`
the external world every call may read and change. -/
structure Env (Client Handle Ctx Data Err Uids MType W : Type) where
  /-- The function `context.Background()`. -/
  background : Ctx
  /-- The method `(*dgo.Dgraph).NewTxn()`. -/
  clientNewTxn : Client → W → Handle × W
  /-- The method `(*dgo.Dgraph).NewReadOnlyTxn()`. -/
  clientNewReadOnlyTxn : Client → W → Handle × W
  /-- The method `(*dgo.Txn).Commit(ctx)`. -/
  txnCommit : Handle → Ctx → W → Option Err × W
  /-- The method `(*dgo.Txn).Discard(ctx)`. -/
  txnDiscard : Handle → Ctx → W → Option Err × W
  /-- The function `newMutateType(data)`. -/
  newMutateType : Data → W → Except Err MType × W
  /-- The function `mutate(ctx, tx, data, opt)`. -/
  mutate : Ctx → Handle → Data → Option MutateOptions → W → Except Err (Assigned Uids) × W
  /-- The method `mType.saveUID(uids)`. -/
  saveUID : MType → Uids → W → Option Err × W
  /-- The function `mutateWithConstraints(ctx, tx, data, update, options...)`. -/
  mutateWithConstraints :
    Ctx → Handle → Data → Bool → List (Option MutateOptions) → W → Option Err × W

section Methods

variable {Client Handle Ctx Data Err Uids MType W : Type}

/-- Go: `func (t *TxnContext) Commit() error { return t.txn.Commit(t.ctx) }`. -/
def TxnContext.Commit (E : Env Client Handle Ctx Data Err Uids MType W)
    (t : TxnContext Handle Ctx) (w : W) : Option Err × TxnContext Handle Ctx × W :=
  let r := E.txnCommit t.txn t.ctx w
  (r.1, t, r.2)

/-- Go: `func (t *TxnContext) Discard() error { return t.txn.Discard(t.ctx) }`. -/
def TxnContext.Discard (E : Env Client Handle Ctx Data Err Uids MType W)
    (t : TxnContext Handle Ctx) (w : W) : Option Err × TxnContext Handle Ctx × W :=
  let r := E.txnDiscard t.txn t.ctx w
  (r.1, t, r.2)

/-- Go: `func (t *TxnContext) Txn() *dgo.Txn { return t.txn }`. -/
def TxnContext.Txn (t : TxnContext Handle Ctx) : Handle :=
  t.txn

/-- Go: `func (t *TxnContext) WithContext(ctx context.Context) { t.ctx = ctx }`.
The result is the receiver after the assignment. -/
def TxnContext.WithContext (t : TxnContext Handle Ctx) (ctx : Ctx) : TxnContext Handle Ctx :=
  { t with ctx := ctx }

/-- Go: `func (t *TxnContext) Context() context.Context { return t.ctx }`. -/
def TxnContext.Context (t : TxnContext Handle Ctx) : Ctx :=
  t.ctx

/-- Go: `TxnContext.Mutate(data, options...)`: pick the options, derive the
descriptor, call `mutate`, write the assigned identifiers back.  Each error is
returned where it arises. -/
def TxnContext.Mutate (E : Env Client Handle Ctx Data Err Uids MType W)
    (t : TxnContext Handle Ctx) (data : Data) (options : List (Option MutateOptions))
    (w : W) : Option Err × TxnContext Handle Ctx × W :=
  let opt : Option MutateOptions := some MutateOptions.zero
  let opt : Option MutateOptions := if h : options.length > 0 then options[0] else opt
  match E.newMutateType data w with
  | (Except.error err, w1) => (some err, t, w1)
  | (Except.ok mType, w1) =>
    match E.mutate t.ctx t.txn data opt w1 with
    | (Except.error err, w2) => (some err, t, w2)
    | (Except.ok assigned, w2) =>
      let r := E.saveUID mType assigned.Uids w2
      (r.1, t, r.2)

/-- Go: `TxnContext.Create`:
`return mutateWithConstraints(t.ctx, t.txn, data, false, options...)`. -/
def TxnContext.Create (E : Env Client Handle Ctx Data Err Uids MType W)
    (t : TxnContext Handle Ctx) (data : Data) (options : List (Option MutateOptions))
    (w : W) : Option Err × TxnContext Handle Ctx × W :=
  let r := E.mutateWithConstraints t.ctx t.txn data false options w
  (r.1, t, r.2)

/-- Go: `TxnContext.Update`:
`return mutateWithConstraints(t.ctx, t.txn, data, true, options...)`. -/
def TxnContext.Update (E : Env Client Handle Ctx Data Err Uids MType W)
    (t : TxnContext Handle Ctx) (data : Data) (options : List (Option MutateOptions))
    (w : W) : Option Err × TxnContext Handle Ctx × W :=
  let r := E.mutateWithConstraints t.ctx t.txn data true options w
  (r.1, t, r.2)

/-- Go: `TxnContext.Delete(model, opt...)`: builds a `Query` and a `Deleter`
around it; no collaborator is called. -/
def TxnContext.Delete (t : TxnContext Handle Ctx) (model : Data)
    (opt : List (Option MutateOptions)) : Deleter Handle Ctx Data :=
  let mutateOpt : Option MutateOptions := some MutateOptions.zero
  let mutateOpt : Option MutateOptions := if h : opt.length > 0 then opt[0] else mutateOpt
  let q : Query Handle Ctx Data := { ctx := t.ctx, tx := t.txn, model := model }
  { q := q, ctx := t.ctx, tx := t.txn, mutateOpt := mutateOpt }

/-- Go: `TxnContext.Get(model)`:
`return &Query{ctx: t.ctx, tx: t.txn, model: model}`. -/
def TxnContext.Get (t : TxnContext Handle Ctx) (model : Data) : Query Handle Ctx Data :=
  { ctx := t.ctx, tx := t.txn, model := model }

/-- Go: `NewTxnContext(ctx, c)`: `&TxnContext{txn: c.NewTxn(), ctx: ctx}`. -/
def NewTxnContext (E : Env Client Handle Ctx Data Err Uids MType W)
    (ctx : Ctx) (c : Client) (w : W) : TxnContext Handle Ctx × W :=
  let r := E.clientNewTxn c w
  ({ txn := r.1, ctx := ctx }, r.2)

/-- Go: `NewTxn(c)`: `return NewTxnContext(context.Background(), c)`. -/
def NewTxn (E : Env Client Handle Ctx Data Err Uids MType W)
    (c : Client) (w : W) : TxnContext Handle Ctx × W :=
  NewTxnContext E E.background c w

/-- Go: `NewReadOnlyTxnContext(ctx, c)`:
`&TxnContext{txn: c.NewReadOnlyTxn(), ctx: ctx}`. -/
def NewReadOnlyTxnContext (E : Env Client Handle Ctx Data Err Uids MType W)
    (ctx : Ctx) (c : Client) (w : W) : TxnContext Handle Ctx × W :=
  let r := E.clientNewReadOnlyTxn c w
  ({ txn := r.1, ctx := ctx }, r.2)

/-- Go: `NewReadOnlyTxn(c)`:
`return NewReadOnlyTxnContext(context.Background(), c)`. -/
def NewReadOnlyTxn (E : Env Client Handle Ctx Data Err Uids MType W)
    (c : Client) (w : W) : TxnContext Handle Ctx × W :=
  NewReadOnlyTxnContext E E.background c w

end Methods

/-! ## A recording test double

The spec proposes to check the forwarding properties with a test double that
records the calls it receives.  `Env.recording E` behaves as `E` and appends
one `Call` to a log for every collaborator call it receives. -/

/-- One collaborator call together with the arguments it received. -/
inductive Call (Client Handle Ctx Data Uids MType : Type) where
  | clientNewTxn (c : Client)
  | clientNewReadOnlyTxn (c : Client)
  | txnCommit (txn : Handle) (ctx : Ctx)
  | txnDiscard (txn : Handle) (ctx : Ctx)
  | newMutateType (data : Data)
  | mutate (ctx : Ctx) (tx : Handle) (data : Data) (opt : Option MutateOptions)
  | saveUID (mType : MType) (uids : Uids)
  | mutateWithConstraints (ctx : Ctx) (tx : Handle) (data : Data) (update : Bool)
      (options : List (Option MutateOptions))
deriving DecidableEq, Repr

section Recording

variable {Client Handle Ctx Data Err Uids MType W : Type}

/-- The test double: every collaborator answers as in `E` and the call is
appended to the log carried next to the world. -/
def Env.recording (E : Env Client Handle Ctx Data Err Uids MType W) :
    Env Client Handle Ctx Data Err Uids MType
      (W × List (Call Client Handle Ctx Data Uids MType)) where
  background := E.background
  clientNewTxn := fun c s =>
    ((E.clientNewTxn c s.1).1, (E.clientNewTxn c s.1).2, s.2 ++ [Call.clientNewTxn c])
  clientNewReadOnlyTxn := fun c s =>
    ((E.clientNewReadOnlyTxn c s.1).1, (E.clientNewReadOnlyTxn c s.1).2,
      s.2 ++ [Call.clientNewReadOnlyTxn c])
  txnCommit := fun txn ctx s =>
    ((E.txnCommit txn ctx s.1).1, (E.txnCommit txn ctx s.1).2, s.2 ++ [Call.txnCommit txn ctx])
  txnDiscard := fun txn ctx s =>
    ((E.txnDiscard txn ctx s.1).1, (E.txnDiscard txn ctx s.1).2,
      s.2 ++ [Call.txnDiscard txn ctx])
  newMutateType := fun data s =>
    ((E.newMutateType data s.1).1, (E.newMutateType data s.1).2,
      s.2 ++ [Call.newMutateType data])
  mutate := fun ctx tx data opt s =>
    ((E.mutate ctx tx data opt s.1).1, (E.mutate ctx tx data opt s.1).2,
      s.2 ++ [Call.mutate ctx tx data opt])
  saveUID := fun mType uids s =>
    ((E.saveUID mType uids s.1).1, (E.saveUID mType uids s.1).2,
      s.2 ++ [Call.saveUID mType uids])
  mutateWithConstraints := fun ctx tx data update options s =>
    ((E.mutateWithConstraints ctx tx data update options s.1).1,
      (E.mutateWithConstraints ctx tx data update options s.1).2,
      s.2 ++ [Call.mutateWithConstraints ctx tx data update options])

end Recording

/-! ## Sequences of method calls -/

/-- A method call on a `TxnContext`, with its arguments. -/
inductive Method (Ctx Data : Type) where
  | Commit
  | Discard
  | Txn
  | Context
  | WithContext (ctx : Ctx)
  | Mutate (data : Data) (options : List (Option MutateOptions))
  | Create (data : Data) (options : List (Option MutateOptions))
  | Update (data : Data) (options : List (Option MutateOptions))
  | Delete (model : Data) (opt : List (Option MutateOptions))
  | Get (model : Data)
deriving DecidableEq, Repr

section Invoke

variable {Client Handle Ctx Data Err Uids MType W : Type}

/-- The receiver and the world after one method call (the returned value is
dropped). -/
def TxnContext.invoke (E : Env Client Handle Ctx Data Err Uids MType W)
    (t : TxnContext Handle Ctx) (w : W) : Method Ctx Data → TxnContext Handle Ctx × W
  | Method.Commit => (t.Commit E w).2
  | Method.Discard => (t.Discard E w).2
  | Method.Txn => (t, w)
  | Method.Context => (t, w)
  | Method.WithContext ctx => (t.WithContext ctx, w)
  | Method.Mutate data options => (t.Mutate E data options w).2
  | Method.Create data options => (t.Create E data options w).2
  | Method.Update data options => (t.Update E data options w).2
  | Method.Delete _ _ => (t, w)
  | Method.Get _ => (t, w)

/-- The receiver and the world after a sequence of method calls, made in order. -/
def TxnContext.invokeAll (E : Env Client Handle Ctx Data Err Uids MType W)
    (t : TxnContext Handle Ctx) (w : W) : List (Method Ctx Data) → TxnContext Handle Ctx × W
  | [] => (t, w)
  | m :: ms => TxnContext.invokeAll E (t.invoke E w m).1 (t.invoke E w m).2 ms

/-- Whether `newMutateType(data)` returns a non-nil error in world `w`. -/
def derivationFails (E : Env Client Handle Ctx Data Err Uids MType W)
    (data : Data) (w : W) : Bool :=
  match (E.newMutateType data w).1 with
  | Except.error _ => true
  | Except.ok _ => false

/-- Whether the call `mutate(t.ctx, t.txn, data, opt)` that `Mutate` makes
after a successful derivation returns a non-nil error. -/
def mutateCallFails (E : Env Client Handle Ctx Data Err Uids MType W)
    (t : TxnContext Handle Ctx) (data : Data) (opt : Option MutateOptions) (w : W) : Bool :=
  match E.newMutateType data w with
  | (Except.error _, _) => false
  | (Except.ok _, w1) =>
    match (E.mutate t.ctx t.txn data opt w1).1 with
    | Except.error _ => true
    | Except.ok _ => false

/-- Whether the call `mType.saveUID(assigned.Uids)` that `Mutate` makes after
a successful derivation and a successful `mutate` returns a non-nil error. -/
def saveUIDCallFails (E : Env Client Handle Ctx Data Err Uids MType W)
    (t : TxnContext Handle Ctx) (data : Data) (opt : Option MutateOptions) (w : W) : Bool :=
  match E.newMutateType data w with
  | (Except.error _, _) => false
  | (Except.ok mType, w1) =>
    match E.mutate t.ctx t.txn data opt w1 with
    | (Except.error _, _) => false
    | (Except.ok assigned, w2) => (E.saveUID mType assigned.Uids w2).1.isSome

end Invoke

/-! ## A concrete environment

Every type is `Nat`; the world counts the collaborator calls made so far. -/

/-- A small environment on which every branch of `Mutate` can be reached:
derivation fails on data `0`, `mutate` fails on data `1`, and the write-back
fails when the assigned identifier is `7`. -/
def demoEnv : Env Nat Nat Nat Nat Nat Nat Nat Nat where
  background := 0
  clientNewTxn := fun c w => (2 * c, w + 1)
  clientNewReadOnlyTxn := fun c w => (2 * c + 1, w + 1)
  txnCommit := fun txn ctx w => (if ctx = 0 then none else some (txn + ctx), w + 1)
  txnDiscard := fun txn ctx w => (if ctx = 0 then none else some (txn * ctx), w + 1)
  newMutateType := fun data w =>
    (if data = 0 then Except.error 40 else Except.ok (data + 100), w + 1)
  mutate := fun ctx _ data _ w =>
    (if data = 1 then Except.error 41 else Except.ok ⟨data + ctx⟩, w + 1)
  saveUID := fun _ uids w => (if uids = 7 then some 42 else none, w + 1)
  mutateWithConstraints := fun ctx tx data update _ w =>
    (if update then some (ctx + tx + data) else none, w + 1)

/-- A transaction context over `demoEnv`: handle `5`, context `3`. -/
def demoTxn : TxnContext Nat Nat := { txn := 5, ctx := 3 }

/-! ## Auxiliary facts about `Mutate` -/

section Lemmas

variable {Client Handle Ctx Data Err Uids MType W : Type}

/-- The options pointer both `Mutate` and `Delete` settle on. -/
theorem dite_options_eq_headD (options : List (Option MutateOptions)) :
    (if h : options.length > 0 then options[0] else some MutateOptions.zero)
      = options.headD (some MutateOptions.zero) := by
  cases options <;> simp

/-- The result of `Mutate` when the derivation returns an error. -/
theorem mutate_of_derivation_error (E : Env Client Handle Ctx Data Err Uids MType W)
    (t : TxnContext Handle Ctx) (data : Data) (options : List (Option MutateOptions)) (w : W)
    (e : Err) (h : (E.newMutateType data w).1 = Except.error e) :
    t.Mutate E data options w = (some e, t, (E.newMutateType data w).2) := by
  unfold TxnContext.Mutate
  rcases hn : E.newMutateType data w with ⟨r, w1⟩
  rw [hn] at h
  simp only at h
  subst h
  rfl

/-- The result of `Mutate` when the derivation succeeds and `mutate` returns
an error. -/
theorem mutate_of_mutate_error (E : Env Client Handle Ctx Data Err Uids MType W)
    (t : TxnContext Handle Ctx) (data : Data) (options : List (Option MutateOptions)) (w : W)
    (mType : MType) (w1 : W) (e : Err) (w2 : W)
    (hd : E.newMutateType data w = (Except.ok mType, w1))
    (hm : E.mutate t.ctx t.txn data (options.headD (some MutateOptions.zero)) w1
      = (Except.error e, w2)) :
    t.Mutate E data options w = (some e, t, w2) := by
  unfold TxnContext.Mutate
  simp only [dite_options_eq_headD, hd, hm]

/-- The result of `Mutate` when the derivation and `mutate` both succeed. -/
theorem mutate_of_mutate_ok (E : Env Client Handle Ctx Data Err Uids MType W)
    (t : TxnContext Handle Ctx) (data : Data) (options : List (Option MutateOptions)) (w : W)
    (mType : MType) (w1 : W) (a : Assigned Uids) (w2 : W)
    (hd : E.newMutateType data w = (Except.ok mType, w1))
    (hm : E.mutate t.ctx t.txn data (options.headD (some MutateOptions.zero)) w1
      = (Except.ok a, w2)) :
    t.Mutate E data options w
      = ((E.saveUID mType a.Uids w2).1, t, (E.saveUID mType a.Uids w2).2) := by
  unfold TxnContext.Mutate
  simp only [dite_options_eq_headD, hd, hm]

/-- The recorded run of `Mutate` when the derivation succeeds and `mutate`
returns an error: two calls are logged. -/
theorem mutate_recording_error (E : Env Client Handle Ctx Data Err Uids MType W)
    (t : TxnContext Handle Ctx) (data : Data) (options : List (Option MutateOptions)) (w : W)
    (log : List (Call Client Handle Ctx Data Uids MType)) (mType : MType) (w1 : W)
    (e : Err) (w2 : W)
    (hd : E.newMutateType data w = (Except.ok mType, w1))
    (hm : E.mutate t.ctx t.txn data (options.headD (some MutateOptions.zero)) w1
      = (Except.error e, w2)) :
    t.Mutate E.recording data options (w, log)
      = (some e, t, w2,
          log ++ [Call.newMutateType data,
            Call.mutate t.ctx t.txn data (options.headD (some MutateOptions.zero))]) := by
  rw [mutate_of_mutate_error E.recording t data options (w, log) mType
    (w1, log ++ [Call.newMutateType data]) e
    (w2, log ++ [Call.newMutateType data]
      ++ [Call.mutate t.ctx t.txn data (options.headD (some MutateOptions.zero))])
    (by simp only [Env.recording, hd]) (by simp only [Env.recording, hm])]
  simp

/-- The recorded run of `Mutate` when the derivation and `mutate` both
succeed: three calls are logged. -/
theorem mutate_recording_ok (E : Env Client Handle Ctx Data Err Uids MType W)
    (t : TxnContext Handle Ctx) (data : Data) (options : List (Option MutateOptions)) (w : W)
    (log : List (Call Client Handle Ctx Data Uids MType)) (mType : MType) (w1 : W)
    (a : Assigned Uids) (w2 : W)
    (hd : E.newMutateType data w = (Except.ok mType, w1))
    (hm : E.mutate t.ctx t.txn data (options.headD (some MutateOptions.zero)) w1
      = (Except.ok a, w2)) :
    t.Mutate E.recording data options (w, log)
      = ((E.saveUID mType a.Uids w2).1, t, (E.saveUID mType a.Uids w2).2,
          log ++ [Call.newMutateType data,
            Call.mutate t.ctx t.txn data (options.headD (some MutateOptions.zero)),
            Call.saveUID mType a.Uids]) := by
  rw [mutate_of_mutate_ok E.recording t data options (w, log) mType
    (w1, log ++ [Call.newMutateType data]) a
    (w2, log ++ [Call.newMutateType data]
      ++ [Call.mutate t.ctx t.txn data (options.headD (some MutateOptions.zero))])
    (by simp only [Env.recording, hd]) (by simp only [Env.recording, hm])]
  simp [Env.recording]

/-- The receiver is handed back unchanged by `Mutate`. -/
theorem mutate_receiver (E : Env Client Handle Ctx Data Err Uids MType W)
    (t : TxnContext Handle Ctx) (data : Data) (options : List (Option MutateOptions)) (w : W) :
    (t.Mutate E data options w).2.1 = t := by
  rcases hd : E.newMutateType data w with ⟨r, w1⟩
  cases r with
  | error e =>
    rw [mutate_of_derivation_error E t data options w e (by rw [hd])]
  | ok mType =>
    rcases hm : E.mutate t.ctx t.txn data (options.headD (some MutateOptions.zero)) w1
      with ⟨r2, w2⟩
    cases r2 with
    | error e => rw [mutate_of_mutate_error E t data options w mType w1 e w2 hd hm]
    | ok a => rw [mutate_of_mutate_ok E t data options w mType w1 a w2 hd hm]

/-- Every method except `WithContext` hands the receiver back unchanged, and
`WithContext` keeps the handle. -/
theorem invoke_txn (E : Env Client Handle Ctx Data Err Uids MType W)
    (t : TxnContext Handle Ctx) (w : W) (m : Method Ctx Data) :
    (t.invoke E w m).1.txn = t.txn := by
  cases m <;> simp [TxnContext.invoke, TxnContext.Commit, TxnContext.Discard,
    TxnContext.Create, TxnContext.Update, TxnContext.WithContext, mutate_receiver]

/-- The handle survives any sequence of method calls. -/
theorem invokeAll_txn (E : Env Client Handle Ctx Data Err Uids MType W)
    (ms : List (Method Ctx Data)) (t : TxnContext Handle Ctx) (w : W) :
    (t.invokeAll E w ms).1.txn = t.txn := by
  induction ms generalizing t w with
  | nil => rfl
  | cons m ms ih =>
    rw [TxnContext.invokeAll, ih, invoke_txn]

end Lemmas

/-! ## The claims -/

section Claims

variable {Client Handle Ctx Data Err Uids MType W : Type}

/-- C1: after `t.WithContext(ctx)`, `t.Context()` returns exactly `ctx`,
whatever context was bound before. -/
theorem C1_withContext_then_context (t : TxnContext Handle Ctx) (ctx : Ctx) :
    (t.WithContext ctx).Context = ctx := by
  rfl

/-- C2: `Commit()` and `Discard()` make exactly one call to the wrapped
transaction, with the handle and the context currently bound (after
`WithContext(ctx)` that is `ctx`), and return that call's result unmodified. -/
theorem C2_commit_discard_forward (E : Env Client Handle Ctx Data Err Uids MType W)
    (t : TxnContext Handle Ctx) (ctx : Ctx) (w : W)
    (log : List (Call Client Handle Ctx Data Uids MType)) :
    (t.Commit E w).1 = (E.txnCommit t.txn t.ctx w).1
    ∧ (t.Commit E w).2.2 = (E.txnCommit t.txn t.ctx w).2
    ∧ (t.Discard E w).1 = (E.txnDiscard t.txn t.ctx w).1
    ∧ (t.Discard E w).2.2 = (E.txnDiscard t.txn t.ctx w).2
    ∧ t.Commit E.recording (w, log)
        = ((E.txnCommit t.txn t.ctx w).1, t, (E.txnCommit t.txn t.ctx w).2,
            log ++ [Call.txnCommit t.txn t.ctx])
    ∧ t.Discard E.recording (w, log)
        = ((E.txnDiscard t.txn t.ctx w).1, t, (E.txnDiscard t.txn t.ctx w).2,
            log ++ [Call.txnDiscard t.txn t.ctx])
    ∧ ((t.WithContext ctx).Commit E.recording (w, log)).2.2.2
        = log ++ [Call.txnCommit t.txn ctx]
    ∧ ((t.WithContext ctx).Discard E.recording (w, log)).2.2.2
        = log ++ [Call.txnDiscard t.txn ctx] := by
  refine ⟨rfl, rfl, rfl, rfl, rfl, rfl, rfl, rfl⟩

/-- C3: `t.Get(m)` is a `Query` holding `t.Txn()`, `t.Context()` and `m`;
`t.Delete(m, ...)` is a `Deleter` holding `t.Txn()` and `t.Context()` whose
embedded `Query` holds the same handle, the same context and `m`. -/
theorem C3_get_delete_carry_parent (t : TxnContext Handle Ctx) (m : Data)
    (opt : List (Option MutateOptions)) :
    (t.Get m).tx = t.Txn ∧ (t.Get m).ctx = t.Context ∧ (t.Get m).model = m
    ∧ (t.Delete m opt).tx = t.Txn ∧ (t.Delete m opt).ctx = t.Context
    ∧ (t.Delete m opt).q.tx = t.Txn ∧ (t.Delete m opt).q.ctx = t.Context
    ∧ (t.Delete m opt).q.model = m
    ∧ (t.Delete m opt).q = t.Get m := by
  refine ⟨rfl, rfl, rfl, rfl, rfl, rfl, rfl, rfl, rfl⟩

/-- C4: if `newMutateType(data)` fails with error `e`, then `Mutate` returns
exactly `e`, and the only collaborator call it makes is that derivation:
neither `mutate` nor `saveUID` is called. -/
theorem C4_mutate_derivation_error (E : Env Client Handle Ctx Data Err Uids MType W)
    (t : TxnContext Handle Ctx) (data : Data) (options : List (Option MutateOptions)) (w : W)
    (log : List (Call Client Handle Ctx Data Uids MType)) (e : Err)
    (h : (E.newMutateType data w).1 = Except.error e) :
    (t.Mutate E data options w).1 = some e
    ∧ (t.Mutate E data options w).2.2 = (E.newMutateType data w).2
    ∧ t.Mutate E.recording data options (w, log)
        = (some e, t, (E.newMutateType data w).2, log ++ [Call.newMutateType data]) := by
  refine ⟨?_, ?_, ?_⟩
  · rw [mutate_of_derivation_error E t data options w e h]
  · rw [mutate_of_derivation_error E t data options w e h]
  · rw [mutate_of_derivation_error E.recording t data options (w, log) e h]
    rfl

/-- Witness for C4 on `demoEnv`: data `0` makes the derivation fail with
error `40`. -/
theorem C4_mutate_derivation_error_witness :
    (demoEnv.newMutateType 0 0).1 = Except.error 40
    ∧ (demoTxn.Mutate demoEnv 0 [none] 0).1 = some 40
    ∧ (demoTxn.Mutate demoEnv 0 [none] 0).2.2 = (demoEnv.newMutateType 0 0).2
    ∧ demoTxn.Mutate demoEnv.recording 0 [none] (0, [])
        = (some 40, demoTxn, (demoEnv.newMutateType 0 0).2, [] ++ [Call.newMutateType 0]) :=
  ⟨rfl, C4_mutate_derivation_error demoEnv demoTxn 0 [none] 0 [] 40 rfl⟩

/-- C5, as stated, fails: on `demoEnv` with data `4` the derivation succeeds
and the `mutate` call succeeds, yet `Mutate` returns the non-nil error `42`
of the write-back. -/
theorem C5_mutate_fails_iff_counterexample :
    derivationFails demoEnv 4 0 = false
    ∧ mutateCallFails demoEnv demoTxn 4 (some MutateOptions.zero) 0 = false
    ∧ (demoTxn.Mutate demoEnv 4 [] 0).1 = some 42
    ∧ ¬ ((demoTxn.Mutate demoEnv 4 [] 0).1 ≠ none
          ↔ (derivationFails demoEnv 4 0 = true
              ∨ mutateCallFails demoEnv demoTxn 4 (some MutateOptions.zero) 0 = true)) := by
  refine ⟨rfl, rfl, rfl, ?_⟩
  decide

/-- C5, amended: `Mutate` returns a non-nil error if and only if the
derivation fails, or the `mutate` call fails, or the write-back `saveUID`
fails; and whenever the derivation and the `mutate` call both succeed,
`Mutate` returns exactly the result of the write-back `saveUID` (nil only
when the write-back returns nil), leaving the world as the write-back left
it. -/
theorem C5_mutate_fails_iff (E : Env Client Handle Ctx Data Err Uids MType W)
    (t : TxnContext Handle Ctx) (data : Data) (options : List (Option MutateOptions)) (w : W) :
    ((t.Mutate E data options w).1 ≠ none
      ↔ (derivationFails E data w = true
          ∨ mutateCallFails E t data (options.headD (some MutateOptions.zero)) w = true
          ∨ saveUIDCallFails E t data (options.headD (some MutateOptions.zero)) w = true))
    ∧ (∀ (mType : MType) (w1 : W) (a : Assigned Uids) (w2 : W),
        E.newMutateType data w = (Except.ok mType, w1) →
        E.mutate t.ctx t.txn data (options.headD (some MutateOptions.zero)) w1
          = (Except.ok a, w2) →
        t.Mutate E data options w
          = ((E.saveUID mType a.Uids w2).1, t, (E.saveUID mType a.Uids w2).2)) := by
  refine ⟨?_, ?_⟩
  · rcases hd : E.newMutateType data w with ⟨r, w1⟩
    cases r with
    | error e =>
      rw [mutate_of_derivation_error E t data options w e (by rw [hd])]
      simp [derivationFails, hd]
    | ok mType =>
      rcases hm : E.mutate t.ctx t.txn data (options.headD (some MutateOptions.zero)) w1
        with ⟨r2, w2⟩
      cases r2 with
      | error e =>
        rw [mutate_of_mutate_error E t data options w mType w1 e w2 hd hm]
        simp only [derivationFails, mutateCallFails, hd, hm]
        simp
      | ok a =>
        rw [mutate_of_mutate_ok E t data options w mType w1 a w2 hd hm]
        simp only [derivationFails, mutateCallFails, saveUIDCallFails, hd, hm]
        simp [Option.isSome_iff_ne_none]
  · intro mType w1 a w2 hd hm
    exact mutate_of_mutate_ok E t data options w mType w1 a w2 hd hm

/-- Witness for C5 (amended) on `demoEnv`: with data `2` the derivation and
the `mutate` call succeed and the write-back returns nil; with data `4` they
succeed and the write-back returns error `42`.  In both cases `Mutate`
returns the write-back's result. -/
theorem C5_mutate_fails_iff_witness :
    (demoEnv.newMutateType 2 0 = (Except.ok 102, 1)
      ∧ demoEnv.mutate 3 5 2 (some MutateOptions.zero) 1 = (Except.ok ⟨5⟩, 2)
      ∧ demoEnv.saveUID 102 5 2 = (none, 3)
      ∧ demoTxn.Mutate demoEnv 2 [] 0
          = ((demoEnv.saveUID 102 5 2).1, demoTxn, (demoEnv.saveUID 102 5 2).2))
    ∧ (demoEnv.newMutateType 4 0 = (Except.ok 104, 1)
      ∧ demoEnv.mutate 3 5 4 (some MutateOptions.zero) 1 = (Except.ok ⟨7⟩, 2)
      ∧ demoEnv.saveUID 104 7 2 = (some 42, 3)
      ∧ demoTxn.Mutate demoEnv 4 [] 0
          = ((demoEnv.saveUID 104 7 2).1, demoTxn, (demoEnv.saveUID 104 7 2).2)) :=
  ⟨⟨rfl, rfl, rfl, (C5_mutate_fails_iff demoEnv demoTxn 2 [] 0).2 102 1 ⟨5⟩ 2 rfl rfl⟩,
   ⟨rfl, rfl, rfl, (C5_mutate_fails_iff demoEnv demoTxn 4 [] 0).2 104 1 ⟨7⟩ 2 rfl rfl⟩⟩

/-- C6: `NewTxn(c)` is `NewTxnContext(context.Background(), c)`: its context is
the background context and its handle the one `c.NewTxn()` returned;
`NewReadOnlyTxn(c)` is `NewReadOnlyTxnContext(context.Background(), c)`, with
the handle `c.NewReadOnlyTxn()` returned; the `*Context` variants bind exactly
the `ctx` supplied.  Each factory makes exactly one call, to the client. -/
theorem C6_factories (E : Env Client Handle Ctx Data Err Uids MType W)
    (ctx : Ctx) (c : Client) (w : W)
    (log : List (Call Client Handle Ctx Data Uids MType)) :
    NewTxn E c w = NewTxnContext E E.background c w
    ∧ (NewTxn E c w).1.Context = E.background
    ∧ (NewTxn E c w).1.Txn = (E.clientNewTxn c w).1
    ∧ NewReadOnlyTxn E c w = NewReadOnlyTxnContext E E.background c w
    ∧ (NewReadOnlyTxn E c w).1.Context = E.background
    ∧ (NewReadOnlyTxn E c w).1.Txn = (E.clientNewReadOnlyTxn c w).1
    ∧ (NewTxnContext E ctx c w).1.Context = ctx
    ∧ (NewTxnContext E ctx c w).1.Txn = (E.clientNewTxn c w).1
    ∧ (NewReadOnlyTxnContext E ctx c w).1.Context = ctx
    ∧ (NewReadOnlyTxnContext E ctx c w).1.Txn = (E.clientNewReadOnlyTxn c w).1
    ∧ (NewTxn E.recording c (w, log)).2 = ((E.clientNewTxn c w).2, log ++ [Call.clientNewTxn c])
    ∧ (NewReadOnlyTxn E.recording c (w, log)).2
        = ((E.clientNewReadOnlyTxn c w).2, log ++ [Call.clientNewReadOnlyTxn c]) := by
  refine ⟨rfl, rfl, rfl, rfl, rfl, rfl, rfl, rfl, rfl, rfl, rfl, rfl⟩

/-- C7: `Create` and `Update` each make exactly one call, to
`mutateWithConstraints`, with the bound context, the handle, the same data and
the whole options list; the flag is `false` for `Create` and `true` for
`Update`; each returns that call's result unmodified. -/
theorem C7_create_update_delegate (E : Env Client Handle Ctx Data Err Uids MType W)
    (t : TxnContext Handle Ctx) (data : Data) (options : List (Option MutateOptions)) (w : W)
    (log : List (Call Client Handle Ctx Data Uids MType)) :
    (t.Create E data options w).1 = (E.mutateWithConstraints t.ctx t.txn data false options w).1
    ∧ (t.Create E data options w).2.2
        = (E.mutateWithConstraints t.ctx t.txn data false options w).2
    ∧ (t.Update E data options w).1 = (E.mutateWithConstraints t.ctx t.txn data true options w).1
    ∧ (t.Update E data options w).2.2
        = (E.mutateWithConstraints t.ctx t.txn data true options w).2
    ∧ t.Create E.recording data options (w, log)
        = ((E.mutateWithConstraints t.ctx t.txn data false options w).1, t,
            (E.mutateWithConstraints t.ctx t.txn data false options w).2,
            log ++ [Call.mutateWithConstraints t.ctx t.txn data false options])
    ∧ t.Update E.recording data options (w, log)
        = ((E.mutateWithConstraints t.ctx t.txn data true options w).1, t,
            (E.mutateWithConstraints t.ctx t.txn data true options w).2,
            log ++ [Call.mutateWithConstraints t.ctx t.txn data true options]) := by
  refine ⟨rfl, rfl, rfl, rfl, rfl, rfl⟩

/-- C8: when the derivation succeeds, a failing `mutate` call makes `Mutate`
return exactly its error, with no write-back attempted; a succeeding `mutate`
call makes `Mutate` return exactly the result of `mType.saveUID` on the
assigned identifiers.  In both cases `mutate` is called exactly once, with the
bound context and the handle. -/
theorem C8_mutate_pass_through (E : Env Client Handle Ctx Data Err Uids MType W)
    (t : TxnContext Handle Ctx) (data : Data) (options : List (Option MutateOptions)) (w : W)
    (log : List (Call Client Handle Ctx Data Uids MType)) (mType : MType) (w1 : W)
    (hd : E.newMutateType data w = (Except.ok mType, w1)) :
    (∀ (e : Err) (w2 : W),
        E.mutate t.ctx t.txn data (options.headD (some MutateOptions.zero)) w1
          = (Except.error e, w2) →
        t.Mutate E data options w = (some e, t, w2)
        ∧ t.Mutate E.recording data options (w, log)
            = (some e, t, w2,
                log ++ [Call.newMutateType data,
                  Call.mutate t.ctx t.txn data (options.headD (some MutateOptions.zero))]))
    ∧ (∀ (a : Assigned Uids) (w2 : W),
        E.mutate t.ctx t.txn data (options.headD (some MutateOptions.zero)) w1
          = (Except.ok a, w2) →
        t.Mutate E data options w
          = ((E.saveUID mType a.Uids w2).1, t, (E.saveUID mType a.Uids w2).2)
        ∧ t.Mutate E.recording data options (w, log)
            = ((E.saveUID mType a.Uids w2).1, t, (E.saveUID mType a.Uids w2).2,
                log ++ [Call.newMutateType data,
                  Call.mutate t.ctx t.txn data (options.headD (some MutateOptions.zero)),
                  Call.saveUID mType a.Uids])) := by
  refine ⟨?_, ?_⟩
  · intro e w2 hm
    exact ⟨mutate_of_mutate_error E t data options w mType w1 e w2 hd hm,
      mutate_recording_error E t data options w log mType w1 e w2 hd hm⟩
  · intro a w2 hm
    exact ⟨mutate_of_mutate_ok E t data options w mType w1 a w2 hd hm,
      mutate_recording_ok E t data options w log mType w1 a w2 hd hm⟩

/-- Witness for C8 on `demoEnv`: with data `1` the `mutate` call fails with
error `41`; with data `2` it assigns identifier `5` and the write-back
succeeds. -/
theorem C8_mutate_pass_through_witness :
    (demoEnv.newMutateType 1 0 = (Except.ok 101, 1)
      ∧ demoEnv.mutate 3 5 1 (some MutateOptions.zero) 1 = (Except.error 41, 2)
      ∧ demoTxn.Mutate demoEnv.recording 1 [] (0, [])
          = (some 41, demoTxn, 2,
              [Call.newMutateType 1, Call.mutate 3 5 1 (some MutateOptions.zero)]))
    ∧ (demoEnv.newMutateType 2 0 = (Except.ok 102, 1)
      ∧ demoEnv.mutate 3 5 2 (some MutateOptions.zero) 1 = (Except.ok ⟨5⟩, 2)
      ∧ demoTxn.Mutate demoEnv.recording 2 [] (0, [])
          = (none, demoTxn, 3,
              [Call.newMutateType 2, Call.mutate 3 5 2 (some MutateOptions.zero),
                Call.saveUID 102 5])) :=
  ⟨⟨rfl, rfl, ((C8_mutate_pass_through demoEnv demoTxn 1 [] 0 [] 101 1 rfl).1 41 2 rfl).2⟩,
   ⟨rfl, rfl, ((C8_mutate_pass_through demoEnv demoTxn 2 [] 0 [] 102 1 rfl).2 ⟨5⟩ 2 rfl).2⟩⟩

/-- C9: with an empty options list `Mutate` hands a zero-valued
`MutateOptions` to `mutate` and `Delete` stores one in the `Deleter`; with a
non-empty list both use its first element, nil included, and the later
elements have no effect. -/
theorem C9_options_defaulting (E : Env Client Handle Ctx Data Err Uids MType W)
    (t : TxnContext Handle Ctx) (data model : Data) (o : Option MutateOptions)
    (rest : List (Option MutateOptions)) (w : W)
    (log : List (Call Client Handle Ctx Data Uids MType)) (mType : MType) (w1 : W)
    (hd : E.newMutateType data w = (Except.ok mType, w1)) :
    (∃ tail, (t.Mutate E.recording data [] (w, log)).2.2.2
        = log ++ [Call.newMutateType data,
            Call.mutate t.ctx t.txn data (some MutateOptions.zero)] ++ tail
        ∧ (tail = [] ∨ ∃ u, tail = [Call.saveUID mType u]))
    ∧ (∃ tail, (t.Mutate E.recording data (o :: rest) (w, log)).2.2.2
        = log ++ [Call.newMutateType data, Call.mutate t.ctx t.txn data o] ++ tail
        ∧ (tail = [] ∨ ∃ u, tail = [Call.saveUID mType u]))
    ∧ t.Mutate E data (o :: rest) w = t.Mutate E data [o] w
    ∧ (t.Delete model []).mutateOpt = some MutateOptions.zero
    ∧ (t.Delete model (o :: rest)).mutateOpt = o
    ∧ t.Delete model (o :: rest) = t.Delete model [o] := by
  have key : ∀ options : List (Option MutateOptions),
      ∃ tail, (t.Mutate E.recording data options (w, log)).2.2.2
        = log ++ [Call.newMutateType data,
            Call.mutate t.ctx t.txn data (options.headD (some MutateOptions.zero))] ++ tail
        ∧ (tail = [] ∨ ∃ u, tail = [Call.saveUID mType u]) := by
    intro options
    rcases hm : E.mutate t.ctx t.txn data (options.headD (some MutateOptions.zero)) w1
      with ⟨r, w2⟩
    cases r with
    | error e =>
      refine ⟨[], ?_, Or.inl rfl⟩
      rw [mutate_recording_error E t data options w log mType w1 e w2 hd hm]
      simp
    | ok a =>
      refine ⟨[Call.saveUID mType a.Uids], ?_, Or.inr ⟨a.Uids, rfl⟩⟩
      rw [mutate_recording_ok E t data options w log mType w1 a w2 hd hm]
      simp
  refine ⟨key [], key (o :: rest), ?_, ?_, ?_, ?_⟩
  · unfold TxnContext.Mutate
    simp only [dite_options_eq_headD, List.headD_cons]
  · simp [TxnContext.Delete]
  · simp [TxnContext.Delete]
  · simp [TxnContext.Delete]

/-- Witness for C9 on `demoEnv`: data `2` passes the derivation; the options
lists are the empty one and `[nil, p]`. -/
theorem C9_options_defaulting_witness :
    demoEnv.newMutateType 2 0 = (Except.ok 102, 1)
    ∧ ((∃ tail, (demoTxn.Mutate demoEnv.recording 2 [] (0, [])).2.2.2
          = [] ++ [Call.newMutateType 2,
              Call.mutate demoTxn.ctx demoTxn.txn 2 (some MutateOptions.zero)] ++ tail
          ∧ (tail = [] ∨ ∃ u, tail = [Call.saveUID 102 u]))
      ∧ (∃ tail,
          (demoTxn.Mutate demoEnv.recording 2 [none, some ⟨true, true⟩] (0, [])).2.2.2
          = [] ++ [Call.newMutateType 2, Call.mutate demoTxn.ctx demoTxn.txn 2 none] ++ tail
          ∧ (tail = [] ∨ ∃ u, tail = [Call.saveUID 102 u]))
      ∧ demoTxn.Mutate demoEnv 2 [none, some ⟨true, true⟩] 0
          = demoTxn.Mutate demoEnv 2 [none] 0
      ∧ (demoTxn.Delete 9 ([] : List (Option MutateOptions))).mutateOpt
          = some MutateOptions.zero
      ∧ (demoTxn.Delete 9 [none, some ⟨true, true⟩]).mutateOpt = none
      ∧ demoTxn.Delete 9 [none, some ⟨true, true⟩] = demoTxn.Delete 9 [none]) :=
  ⟨rfl, C9_options_defaulting demoEnv demoTxn 2 9 none [some ⟨true, true⟩] 0 [] 102 1 rfl⟩

/-- C10: `WithContext` keeps the handle returned by `Txn()`; `Commit`,
`Discard`, `Txn`, `Context`, `Mutate`, `Create`, `Update`, `Delete` and `Get`
hand the receiver back with both fields unchanged; so after any sequence of
method calls the handle is still the one set at construction. -/
theorem C10_frame (E : Env Client Handle Ctx Data Err Uids MType W)
    (t : TxnContext Handle Ctx) (ctx : Ctx) (c : Client) (data : Data)
    (options : List (Option MutateOptions)) (w w0 : W) (ms : List (Method Ctx Data)) :
    (t.WithContext ctx).Txn = t.Txn
    ∧ (t.Commit E w).2.1 = t
    ∧ (t.Discard E w).2.1 = t
    ∧ (t.Mutate E data options w).2.1 = t
    ∧ (t.Create E data options w).2.1 = t
    ∧ (t.Update E data options w).2.1 = t
    ∧ (t.invoke E w Method.Commit).1 = t
    ∧ (t.invoke E w Method.Discard).1 = t
    ∧ t.invoke E w Method.Txn = (t, w)
    ∧ t.invoke E w Method.Context = (t, w)
    ∧ (t.invoke E w (Method.Mutate data options)).1 = t
    ∧ (t.invoke E w (Method.Create data options)).1 = t
    ∧ (t.invoke E w (Method.Update data options)).1 = t
    ∧ t.invoke E w (Method.Delete data options) = (t, w)
    ∧ t.invoke E w (Method.Get data) = (t, w)
    ∧ (t.invokeAll E w ms).1.Txn = t.Txn
    ∧ ((NewTxnContext E ctx c w0).1.invokeAll E w ms).1.Txn = (E.clientNewTxn c w0).1
    ∧ ((NewReadOnlyTxnContext E ctx c w0).1.invokeAll E w ms).1.Txn
        = (E.clientNewReadOnlyTxn c w0).1 := by
  refine ⟨rfl, rfl, rfl, mutate_receiver E t data options w, rfl, rfl, rfl, rfl, rfl, rfl,
    mutate_receiver E t data options w, rfl, rfl, rfl, rfl, invokeAll_txn E ms t w, ?_, ?_⟩
  · exact invokeAll_txn E ms _ w
  · exact invokeAll_txn E ms _ w

end Claims

end Dgman
